import Mathlib

/-
  Verification of the invoicing/inventory application (src/index.tsx).

  The application state and its handlers are shallowly embedded: JavaScript
  numbers are modelled as rationals (ℚ), with NaN represented explicitly as
  `none` in `Option ℚ` where a computation can produce it; JavaScript
  `undefined` record fields are modelled as `Option` fields; the browser's
  localStorage is modelled as a record of optional stored values.
-/

namespace Invoicer

/-- Product record (src/index.tsx, interface Product). -/
structure Product where
  id : String
  code : String
  name : String
  description : String
  price : ℚ
  image : Option String
deriving Repr, DecidableEq

/-- Invoice line item (src/index.tsx, interface InvoiceItem). -/
structure InvoiceItem where
  id : String
  productId : Option String
  description : String
  itemCode : String
  price : ℚ
  qty : ℚ
  image : Option String
deriving Repr, DecidableEq

/-- In-memory invoice document (src/index.tsx, interface InvoiceData). -/
structure InvoiceData where
  id : Option String
  customerName : String
  reference : String
  date : String
  items : List InvoiceItem
  footerNote : String
  savedAt : Option String
deriving Repr, DecidableEq

/-- Table layout configuration (src/index.tsx, interface TableConfig). -/
structure TableConfig where
  imageWidth : ℚ
  itemWidth : ℚ
  priceWidth : ℚ
  qtyWidth : ℚ
  totalWidth : ℚ
  rowPadding : ℚ
  fontSize : ℚ
deriving Repr, DecidableEq

/-- Application settings (src/index.tsx, interface AppSettings). -/
structure AppSettings where
  companyLogo : String
  taxRate : ℚ
  themeColor : String
  showImageColumn : Bool
  tableConfig : TableConfig
deriving Repr, DecidableEq

/-- DEFAULT_COLOR constant (src/index.tsx line 102). -/
def DEFAULT_COLOR : String := "#3b82f6"

/-- DEFAULT_TABLE_CONFIG constant (src/index.tsx lines 103-111). -/
def DEFAULT_TABLE_CONFIG : TableConfig :=
  { imageWidth := 10, itemWidth := 15, priceWidth := 15, qtyWidth := 10,
    totalWidth := 10, rowPadding := 8, fontSize := 14 }

/-- Model of the JavaScript `x || d` idiom on an optional string: `undefined`
    and the empty string (the falsy strings) fall back to the default. -/
def strFalsyOr (v : Option String) (d : String) : String :=
  match v with
  | none => d
  | some s => if s = "" then d else s

/-- Model of the JavaScript `x || d` idiom on an optional number: `undefined`
    (and NaN, also modelled as `none`) and `0` (the falsy numbers) fall back
    to the default. -/
def numFalsyOr (v : Option ℚ) (d : ℚ) : ℚ :=
  match v with
  | none => d
  | some q => if q = 0 then d else q

/-- Model of JavaScript `String.prototype.startsWith`. -/
def strStartsWith (s p : String) : Bool :=
  decide (s.toList.take p.toList.length = p.toList)

/-- Model of JavaScript `String.prototype.endsWith`. -/
def strEndsWith (s p : String) : Bool :=
  decide (s.toList.reverse.take p.toList.length = p.toList.reverse)

/-- Model of JavaScript `Array.prototype.findIndex` (the -1 result is
    modelled as `none`). -/
def jsFindIndex (p : α → Bool) : List α → Option ℕ
  | [] => none
  | x :: xs => if p x then some 0 else (jsFindIndex p xs).map (· + 1)

/- Invoice editor: item operations (src/index.tsx lines 855-879). -/

/-- Function addItem (src/index.tsx lines 855-868): appends a new line item,
    optionally seeded from a catalog product; the JavaScript falsy-defaults
    `product?.code || ''` and `product?.price || 0` coincide with plain field
    copies because the fallbacks equal the falsy values themselves. -/
def addItem (freshId : String) (product : Option Product) (items : List InvoiceItem) :
    List InvoiceItem :=
  items ++
    [{ id := freshId
       productId := product.map Product.id
       itemCode := match product with | some p => p.code | none => ""
       description := match product with
         | some p => p.name ++ " - " ++ p.description
         | none => ""
       price := match product with | some p => p.price | none => 0
       qty := 1
       image := product.bind Product.image }]

/-- One field/value pair as passed to updateItem (src/index.tsx line 870). -/
inductive ItemFieldVal where
  | description (v : String)
  | itemCode (v : String)
  | price (v : ℚ)
  | qty (v : ℚ)
  | image (v : Option String)
  | productId (v : Option String)
deriving Repr, DecidableEq

/-- The spread `{ ...item, [field]: value }` of updateItem. -/
def setItemField (it : InvoiceItem) : ItemFieldVal → InvoiceItem
  | .description v => { it with description := v }
  | .itemCode v => { it with itemCode := v }
  | .price v => { it with price := v }
  | .qty v => { it with qty := v }
  | .image v => { it with image := v }
  | .productId v => { it with productId := v }

/-- Function updateItem (src/index.tsx lines 870-875). -/
def updateItem (id : String) (fv : ItemFieldVal) (items : List InvoiceItem) :
    List InvoiceItem :=
  items.map (fun it => if it.id = id then setItemField it fv else it)

/-- Function removeItem (src/index.tsx lines 877-879). -/
def removeItem (id : String) (items : List InvoiceItem) : List InvoiceItem :=
  items.filter (fun it => decide (it.id ≠ id))

/-- One user operation on the invoice item list. -/
inductive InvoiceOp where
  | add (freshId : String) (product : Option Product)
  | update (id : String) (fv : ItemFieldVal)
  | remove (id : String)
deriving Repr

/-- Apply one invoice item operation. -/
def applyOp (items : List InvoiceItem) : InvoiceOp → List InvoiceItem
  | .add freshId product => addItem freshId product items
  | .update id fv => updateItem id fv items
  | .remove id => removeItem id items

/-- Apply a sequence of invoice item operations. -/
def applyOps (ops : List InvoiceOp) (init : List InvoiceItem) : List InvoiceItem :=
  ops.foldl applyOp init

/-- Function calculateSubtotal (src/index.tsx lines 896-898). -/
def calculateSubtotal (items : List InvoiceItem) : ℚ :=
  items.foldl (fun acc item => acc + item.price * item.qty) 0

/-- Function calculateTotal (src/index.tsx lines 900-904). -/
def calculateTotal (items : List InvoiceItem) (taxRate : ℚ) : ℚ :=
  let subtotal := calculateSubtotal items
  let taxAmount := subtotal * (taxRate / 100)
  subtotal + taxAmount

/- Catalog manager (src/index.tsx lines 176-185). -/

/-- Combined state relevant to product deletion: the persisted catalog and
    the invoice editor's in-memory item list. -/
structure AppState where
  products : List Product
  invoice : List InvoiceItem
deriving Repr, DecidableEq

/-- Function handleDelete (src/index.tsx lines 181-185): removes the product
    from the catalog; the invoice item list is untouched by the handler. -/
def handleDelete (id : String) (s : AppState) : AppState :=
  { s with products := s.products.filter (fun p => decide (p.id ≠ id)) }

/- Table layout derivation (src/index.tsx lines 980-982). -/

/-- The usedWidth computation (src/index.tsx line 981): the image column
    width counts only when the image column is shown. -/
def usedWidth (s : AppSettings) : ℚ :=
  (if s.showImageColumn then s.tableConfig.imageWidth else 0) +
    s.tableConfig.itemWidth + s.tableConfig.priceWidth +
    s.tableConfig.qtyWidth + s.tableConfig.totalWidth

/-- The descriptionWidth computation (src/index.tsx line 982). -/
def descriptionWidth (s : AppSettings) : ℚ :=
  max 10 (100 - usedWidth s)

/- Draft save/load/delete (src/index.tsx lines 928-967). -/

/-- Function handleSaveDraft (src/index.tsx lines 928-951). `freshId` is the
    value generateId() would produce, `now` the current time string; the
    JavaScript `data.id || generateId()` treats an absent and an empty id as
    falsy. Returns the draft that was saved (the new `data` state) and the
    updated drafts collection. -/
def handleSaveDraft (freshId now : String) (data : InvoiceData)
    (savedDrafts : List InvoiceData) : InvoiceData × List InvoiceData :=
  let draftId := strFalsyOr data.id freshId
  let draftToSave : InvoiceData := { data with id := some draftId, savedAt := some now }
  let updatedDrafts :=
    match jsFindIndex (fun d => decide (d.id = some draftId)) savedDrafts with
    | some idx => savedDrafts.set idx draftToSave
    | none => draftToSave :: savedDrafts
  (draftToSave, updatedDrafts)

/-- Function handleDeleteDraft (src/index.tsx lines 960-967). -/
def handleDeleteDraft (id : String) (savedDrafts : List InvoiceData) :
    List InvoiceData :=
  savedDrafts.filter (fun d => decide (d.id ≠ some id))

/- Persisted storage, backup and restore (src/index.tsx lines 510-547). -/

/-- Stored shape of TableConfig: any field may be missing in the persisted
    record (JSON written by an older or foreign producer). -/
structure StoredTableConfig where
  imageWidth : Option ℚ
  itemWidth : Option ℚ
  priceWidth : Option ℚ
  qtyWidth : Option ℚ
  totalWidth : Option ℚ
  rowPadding : Option ℚ
  fontSize : Option ℚ
deriving Repr, DecidableEq

/-- Stored shape of AppSettings: any field may be missing in the persisted
    record. -/
structure StoredSettings where
  companyLogo : Option String
  taxRate : Option ℚ
  themeColor : Option String
  showImageColumn : Option Bool
  tableConfig : Option StoredTableConfig
deriving Repr, DecidableEq

/-- The parse of the literal `'{}'` default: an object with no fields. -/
def emptyStoredSettings : StoredSettings :=
  { companyLogo := none, taxRate := none, themeColor := none,
    showImageColumn := none, tableConfig := none }

/-- The three persisted localStorage records; a `none` field models a key
    that is absent from storage. -/
structure Store where
  products : Option (List Product)
  invoiceDrafts : Option (List InvoiceData)
  appSettings : Option StoredSettings
deriving Repr, DecidableEq

/-- Shape of a backup file: each of the three sections may be absent (the
    restore handler checks each for truthiness before writing it). -/
structure BackupFile where
  products : Option (List Product)
  drafts : Option (List InvoiceData)
  settings : Option StoredSettings
deriving Repr, DecidableEq

/-- Function handleBackup (src/index.tsx lines 510-525): reads the three
    storage keys with the defaults `'[]'`, `'[]'`, `'{}'` for absent keys and
    writes all three sections into the backup object. -/
def handleBackup (store : Store) : BackupFile :=
  { products := some (store.products.getD [])
    drafts := some (store.invoiceDrafts.getD [])
    settings := some (store.appSettings.getD emptyStoredSettings) }

/-- Function handleRestore (src/index.tsx lines 527-547), success path: each
    section present in the file (arrays and objects are truthy in JavaScript,
    even when empty) overwrites the corresponding storage key; absent
    sections leave their key untouched. -/
def handleRestore (data : BackupFile) (store : Store) : Store :=
  { products := match data.products with | some v => some v | none => store.products
    invoiceDrafts := match data.drafts with | some v => some v | none => store.invoiceDrafts
    appSettings := match data.settings with | some v => some v | none => store.appSettings }

/- Settings load with defaulting (src/index.tsx lines 483-494 and 820-829). -/

/-- The in-memory settings produced by loading a stored record: companyLogo
    and taxRate are spread verbatim (so they stay absent when missing), while
    themeColor, showImageColumn and tableConfig are explicitly defaulted. -/
structure LoadedSettings where
  companyLogo : Option String
  taxRate : Option ℚ
  themeColor : String
  showImageColumn : Bool
  tableConfig : TableConfig
deriving Repr, DecidableEq

/-- The merge `{ ...DEFAULT_TABLE_CONFIG, ...parsed.tableConfig }`: each
    field present in the stored record wins, absent fields keep the default
    (JSON.parse never produces `undefined`-valued keys). -/
def mergeTableConfig (tc : StoredTableConfig) : TableConfig :=
  { imageWidth := tc.imageWidth.getD DEFAULT_TABLE_CONFIG.imageWidth
    itemWidth := tc.itemWidth.getD DEFAULT_TABLE_CONFIG.itemWidth
    priceWidth := tc.priceWidth.getD DEFAULT_TABLE_CONFIG.priceWidth
    qtyWidth := tc.qtyWidth.getD DEFAULT_TABLE_CONFIG.qtyWidth
    totalWidth := tc.totalWidth.getD DEFAULT_TABLE_CONFIG.totalWidth
    rowPadding := tc.rowPadding.getD DEFAULT_TABLE_CONFIG.rowPadding
    fontSize := tc.fontSize.getD DEFAULT_TABLE_CONFIG.fontSize }

/-- The settings-loading effect (identical in SettingsView, src/index.tsx
    lines 483-494, and InvoiceEditor, lines 820-829):
    `setSettings(spread of parsed with themeColor, showImageColumn and
    tableConfig defaulted)`. -/
def loadSettings (parsed : StoredSettings) : LoadedSettings :=
  { companyLogo := parsed.companyLogo
    taxRate := parsed.taxRate
    themeColor := strFalsyOr parsed.themeColor DEFAULT_COLOR
    showImageColumn := parsed.showImageColumn.getD true
    tableConfig := match parsed.tableConfig with
      | some tc => mergeTableConfig tc
      | none => DEFAULT_TABLE_CONFIG }

/- AI extraction upload (src/index.tsx lines 203-305). -/

/-- Metadata of the uploaded File object. -/
structure UploadFile where
  name : String
  type : String
deriving Repr, DecidableEq

/-- The Word-processing MIME type checked at src/index.tsx line 219. -/
def wordMime : String :=
  "application/vnd.openxmlformats-officedocument.wordprocessingml.document"

/-- The isWord test (src/index.tsx line 219). -/
def isWordFile (f : UploadFile) : Bool :=
  strEndsWith f.name ".docx" || decide (f.type = wordMime)

/-- One entry of the parsed structured-extraction response; every field of
    the response schema may be missing. -/
structure RawEntry where
  code : Option String
  name : Option String
  description : Option String
  price : Option ℚ
deriving Repr, DecidableEq

/-- The placeholder product name default (src/index.tsx line 285). -/
def defaultProductName : String := "منتج جديد"

/-- The mapping of one response entry to a catalog product
    (src/index.tsx lines 282-289), given the already-decided image
    attachment. -/
def mkProduct (freshId : String) (img : Option String) (e : RawEntry) : Product :=
  { id := freshId
    code := strFalsyOr e.code "N/A"
    name := strFalsyOr e.name defaultProductName
    description := strFalsyOr e.description ""
    price := numFalsyOr e.price 0
    image := img }

/-- Map with the element index, mirroring one generateId() call per mapped
    response entry. -/
def mapIdxFrom (g : ℕ → α → β) : ℕ → List α → List β
  | _, [] => []
  | i, x :: xs => g i x :: mapIdxFrom g (i + 1) xs

/-- Statuses surfaced by handleFileUpload, standing for the Arabic status
    strings of src/index.tsx: `analyzing` (the initial status, which is never
    replaced when response.text is falsy), `success n` (n products
    extracted), `notFound` (no products array in the response), `error` (the
    catch-all of line 299) and `missingKey` (the alert of line 208). -/
inductive UploadStatus where
  | analyzing
  | success (n : ℕ)
  | notFound
  | error
  | missingKey
deriving Repr, DecidableEq

/-- Outcomes of the effectful steps of handleFileUpload, as the handler
    observes them: the Word text extraction (mammoth), the file encoding
    (fileToBase64 / arrayBuffer), the API call (`Except.ok none` models a
    falsy `response.text`), and the JSON parse plus products-array shape
    check of the response text (`Except.ok none` models a parse that
    succeeded but produced no products array). -/
structure UploadOracles where
  wordText : Except String String
  fileData : Except String String
  apiText : Except String (Option String)
  parseJson : String → Except String (Option (List RawEntry))

/-- The body of the try block of handleFileUpload (src/index.tsx lines
    215-296): any error aborts the whole computation before the single
    saveProducts write; on success it returns the new catalog contents and
    the status set inside the try block. -/
def runUpload (o : UploadOracles) (f : UploadFile) (gen : ℕ → String)
    (products : List Product) : Except String (List Product × UploadStatus) :=
  let step1 : Except String String :=
    if isWordFile f then
      match o.wordText with
      | .error e => .error e
      | .ok text =>
        if text = "" then .error "Could not extract text from Word file"
        else .ok ""
    else o.fileData
  match step1 with
  | .error e => .error e
  | .ok base64Data =>
    match o.apiText with
    | .error e => .error e
    | .ok none => .ok (products, .analyzing)
    | .ok (some t) =>
      match o.parseJson t with
      | .error e => .error e
      | .ok none => .ok (products, .notFound)
      | .ok (some entries) =>
        let img : Option String :=
          if isWordFile f = false ∧ base64Data ≠ "" ∧ strStartsWith f.type "image" = true
          then some base64Data else none
        let newItems := mapIdxFrom (fun i e => mkProduct (gen i) img e) 0 entries
        .ok (products ++ newItems, .success newItems.length)

/-- Function handleFileUpload (src/index.tsx lines 203-305): the missing-key
    guard, then the try block with the catch branch that surfaces the error
    status and leaves the persisted catalog untouched. Returns the final
    contents of the persisted products record and the surfaced status. -/
def handleFileUpload (hasKey : Bool) (o : UploadOracles) (f : UploadFile)
    (gen : ℕ → String) (products : List Product) : List Product × UploadStatus :=
  if hasKey = false then (products, .missingKey)
  else
    match runUpload o f gen products with
    | .ok r => r
    | .error _ => (products, .error)

/-- The image value attached to every extracted product, as a function of
    the oracles alone (the value `img` takes inside the success branch of
    runUpload). -/
def runUploadImage (o : UploadOracles) (f : UploadFile) : Option String :=
  if isWordFile f then none
  else
    match o.fileData with
    | .error _ => none
    | .ok b => if b ≠ "" ∧ strStartsWith f.type "image" = true then some b else none

/- Numeric form inputs (src/index.tsx lines 354, 633, 1247, 1266). -/

/-- The numeric prefix recognized by `parseFloat`, as plain natural-number
    data: the sign, the integer digits value, the fraction digits value and
    length, and the exponent sign and digits value. -/
structure FloatParts where
  neg : Bool
  intVal : ℕ
  fracVal : ℕ
  fracLen : ℕ
  expNeg : Bool
  expVal : ℕ
deriving Repr, DecidableEq

/-- Decimal value of a digit list. -/
def digitsToNat (ds : List Char) : ℕ :=
  ds.foldl (fun a c => a * 10 + (c.toNat - 48)) 0

/-- The character-level scan of `parseFloat`: optional leading spaces, an
    optional sign, a decimal literal `digits`, `digits.digits` or `.digits`,
    then an optional exponent part `e` or `E` with an optional sign and
    decimal digits (an `e` not followed by digits contributes exponent 0,
    as parseFloat ignores an incomplete exponent part); `none` when there is
    no numeric prefix at all. -/
def jsParseFloatParts (s : String) : Option FloatParts :=
  let cs := s.toList.dropWhile (fun c => c = ' ')
  let signed : Bool × List Char :=
    match cs with
    | '-' :: rest => (true, rest)
    | '+' :: rest => (false, rest)
    | _ => (false, cs)
  let intPart := signed.2.takeWhile Char.isDigit
  let rest := signed.2.dropWhile Char.isDigit
  let afterDot : List Char × List Char :=
    match rest with
    | '.' :: r => (r.takeWhile Char.isDigit, r.dropWhile Char.isDigit)
    | _ => ([], rest)
  let expSigned : Bool × List Char :=
    match afterDot.2 with
    | 'e' :: '-' :: ds => (true, ds)
    | 'E' :: '-' :: ds => (true, ds)
    | 'e' :: '+' :: ds => (false, ds)
    | 'E' :: '+' :: ds => (false, ds)
    | 'e' :: ds => (false, ds)
    | 'E' :: ds => (false, ds)
    | _ => (false, [])
  let expDigits := expSigned.2.takeWhile Char.isDigit
  if intPart = [] ∧ afterDot.1 = [] then none
  else some { neg := signed.1, intVal := digitsToNat intPart,
              fracVal := digitsToNat afterDot.1, fracLen := afterDot.1.length,
              expNeg := expSigned.1, expVal := digitsToNat expDigits }

/-- The rational value of a recognized numeric prefix. -/
def partsToRat (p : FloatParts) : ℚ :=
  let base : ℚ := (p.intVal : ℚ) + (p.fracVal : ℚ) / (10 : ℚ) ^ p.fracLen
  let scaled : ℚ :=
    if p.expNeg then base / (10 : ℚ) ^ p.expVal else base * (10 : ℚ) ^ p.expVal
  (if p.neg then -1 else 1) * scaled

/-- Model of the JavaScript `parseFloat` on the strings the application's
    number inputs yield: the full sign/decimal/fraction/exponent grammar of
    a valid floating-point number string, and `none` (NaN) for any string
    with no numeric prefix — in particular the empty string a number input
    reports for invalid text. (The literal "Infinity", which parseFloat
    accepts but a number input cannot report and ℚ cannot hold, is the one
    parseFloat input outside the model.) -/
def jsParseFloat (s : String) : Option ℚ :=
  (jsParseFloatParts s).map partsToRat

/-- The shared `parseFloat(e.target.value) || 0` idiom of every numeric form
    handler. -/
def numericInputValue (s : String) : ℚ :=
  numFalsyOr (jsParseFloat s) 0

/-- The price-input onChange of an invoice item (src/index.tsx line 1247). -/
def updateItemPriceInput (id s : String) (items : List InvoiceItem) :
    List InvoiceItem :=
  updateItem id (.price (numericInputValue s)) items

/-- The qty-input onChange of an invoice item (src/index.tsx line 1266). -/
def updateItemQtyInput (id s : String) (items : List InvoiceItem) :
    List InvoiceItem :=
  updateItem id (.qty (numericInputValue s)) items

/-- The tax-rate input onChange of SettingsView (src/index.tsx line 633). -/
def setTaxRateInput (s : String) (st : AppSettings) : AppSettings :=
  { st with taxRate := numericInputValue s }

/-- The price input onChange of the product edit modal (src/index.tsx
    line 354). -/
def setEditPriceInput (s : String) (p : Product) : Product :=
  { p with price := numericInputValue s }

/- Helper lemmas. -/

/-- The subtotal fold equals the accumulator plus the sum of price times
    quantity. -/
theorem subtotal_foldl (l : List InvoiceItem) :
    ∀ a : ℚ, l.foldl (fun acc it => acc + it.price * it.qty) a
      = a + (l.map (fun it => it.price * it.qty)).sum := by
  induction l with
  | nil => intro a; simp
  | cons x xs ih => intro a; simp [ih, add_assoc]

/-- jsFindIndex misses exactly when no element satisfies the predicate. -/
theorem jsFindIndex_eq_none_iff (p : α → Bool) (l : List α) :
    jsFindIndex p l = none ↔ ∀ x ∈ l, p x = false := by
  induction l with
  | nil => simp [jsFindIndex]
  | cons x xs ih =>
    by_cases hx : p x
    · simp [jsFindIndex, hx]
    · simp only [jsFindIndex, if_neg hx, Option.map_eq_none', ih, List.mem_cons]
      constructor
      · intro h y hy
        rcases hy with rfl | hy
        · exact Bool.eq_false_iff.mpr hx
        · exact h y hy
      · intro h y hy
        exact h y (Or.inr hy)

/-- Replacing, at the index found by jsFindIndex, an element by one with the
    same observation leaves the mapped list unchanged. -/
theorem map_set_of_jsFindIndex (p : α → Bool) (f : α → β) (a : α)
    (hfa : ∀ x, p x = true → f x = f a) :
    ∀ (l : List α) (i : ℕ), jsFindIndex p l = some i →
      (l.set i a).map f = l.map f := by
  intro l
  induction l with
  | nil => intro i h; simp [jsFindIndex] at h
  | cons x xs ih =>
    intro i h
    by_cases hx : p x = true
    · rw [jsFindIndex, if_pos hx] at h
      cases h
      show (a :: xs).map f = (x :: xs).map f
      exact congrArg (fun y => y :: xs.map f) (hfa x hx).symm
    · rw [jsFindIndex, if_neg hx] at h
      cases hfd : jsFindIndex p xs with
      | none => rw [hfd] at h; simp at h
      | some j =>
        rw [hfd] at h
        have h2 : j + 1 = i := by simpa using h
        subst h2
        show (x :: xs.set j a).map f = (x :: xs).map f
        simp only [List.map_cons, ih j hfd]

/- Claim theorems. -/

/-- C1: for every invoice state and any tax rate, after any sequence of
    addItem, updateItem and removeItem operations, calculateSubtotal returns
    the sum over the items of price times quantity, calculateTotal returns
    that sum times (1 + taxRate/100), and the tax amount equals the subtotal
    times taxRate/100. -/
theorem invoice_total_formula (ops : List InvoiceOp) (init : List InvoiceItem)
    (taxRate : ℚ) :
    calculateSubtotal (applyOps ops init)
        = ((applyOps ops init).map (fun it => it.price * it.qty)).sum ∧
      calculateTotal (applyOps ops init) taxRate
        = ((applyOps ops init).map (fun it => it.price * it.qty)).sum
            * (1 + taxRate / 100) ∧
      calculateTotal (applyOps ops init) taxRate
        = calculateSubtotal (applyOps ops init)
            + calculateSubtotal (applyOps ops init) * (taxRate / 100) := by
  generalize applyOps ops init = items
  have hsub : calculateSubtotal items
      = (items.map (fun it => it.price * it.qty)).sum := by
    rw [calculateSubtotal, subtotal_foldl items 0, zero_add]
  refine ⟨hsub, ?_, ?_⟩
  · rw [calculateTotal, hsub]; ring
  · rw [calculateTotal]

/-- C4: deleting a product from the catalog leaves every invoice item
    unchanged; in particular an item just created from that product keeps
    all the copied fields (code, name and description, price, image). -/
theorem delete_product_frame (s : AppState) (p : Product) (freshId : String) :
    (handleDelete p.id { s with invoice := addItem freshId (some p) s.invoice }).invoice
        = addItem freshId (some p) s.invoice ∧
      (handleDelete p.id { s with invoice := addItem freshId (some p) s.invoice }).invoice
        = s.invoice ++
            [{ id := freshId, productId := some p.id,
               description := p.name ++ " - " ++ p.description, itemCode := p.code,
               price := p.price, qty := 1, image := p.image }] := by
  exact ⟨rfl, rfl⟩

/-- Concrete settings with the image column hidden and the default widths. -/
def exSettingsNoImage : AppSettings :=
  { companyLogo := "", taxRate := 0, themeColor := DEFAULT_COLOR,
    showImageColumn := false, tableConfig := DEFAULT_TABLE_CONFIG }

/-- Concrete settings with the image column shown and the default widths. -/
def exSettingsImage : AppSettings :=
  { companyLogo := "", taxRate := 0, themeColor := DEFAULT_COLOR,
    showImageColumn := true, tableConfig := DEFAULT_TABLE_CONFIG }

/-- C5 counterexample: with the image column hidden (image width 10, item 15,
    price 15, qty 10, total 10, so the five widths sum to W = 60), the code
    computes description width 50, not max(10, 100 − W) = 40: the image
    width only counts when the image column is shown. -/
theorem description_width_cex :
    descriptionWidth exSettingsNoImage ≠
      max 10 (100 - (exSettingsNoImage.tableConfig.imageWidth
        + exSettingsNoImage.tableConfig.itemWidth
        + exSettingsNoImage.tableConfig.priceWidth
        + exSettingsNoImage.tableConfig.qtyWidth
        + exSettingsNoImage.tableConfig.totalWidth)) := by
  norm_num [descriptionWidth, usedWidth, exSettingsNoImage, DEFAULT_TABLE_CONFIG,
    max_def]

/-- C5 amended: the description column width is max(10, 100 − W) where W is
    the sum of the item, price, qty and total column widths plus the image
    column width when and only when the image column is shown. -/
theorem description_width_amended (s : AppSettings) :
    (s.showImageColumn = true →
      descriptionWidth s = max 10 (100 - (s.tableConfig.imageWidth
        + s.tableConfig.itemWidth + s.tableConfig.priceWidth
        + s.tableConfig.qtyWidth + s.tableConfig.totalWidth))) ∧
    (s.showImageColumn = false →
      descriptionWidth s = max 10 (100 - (s.tableConfig.itemWidth
        + s.tableConfig.priceWidth + s.tableConfig.qtyWidth
        + s.tableConfig.totalWidth))) := by
  constructor <;> intro h <;> simp [descriptionWidth, usedWidth, h]

/-- Witness for the amended C5 statement at the two concrete settings
    records, one per branch of the hypothesis. -/
theorem description_width_amended_witness :
    descriptionWidth exSettingsImage = max 10 (100 - ((10 : ℚ) + 15 + 15 + 10 + 10)) ∧
      descriptionWidth exSettingsNoImage = max 10 (100 - ((15 : ℚ) + 15 + 10 + 10)) :=
  ⟨(description_width_amended exSettingsImage).1 rfl,
    (description_width_amended exSettingsNoImage).2 rfl⟩

/-- C2: saving a draft whose (non-empty) id already occurs in the collection
    replaces the entry with that id in place — the collection's length is
    unchanged and the list of ids is unchanged, so no duplicate id is
    introduced; saving a draft with no id assigns the fresh id, stamps the
    saved-at time, and grows the collection by exactly one entry. -/
theorem saveDraft_upsert (freshId now : String) (data : InvoiceData)
    (drafts : List InvoiceData) :
    (∀ i, data.id = some i → i ≠ "" → (∃ d ∈ drafts, d.id = some i) →
        (handleSaveDraft freshId now data drafts).2.length = drafts.length ∧
          (handleSaveDraft freshId now data drafts).2.map InvoiceData.id
            = drafts.map InvoiceData.id) ∧
      (data.id = none → (∀ d ∈ drafts, d.id ≠ some freshId) →
        (handleSaveDraft freshId now data drafts).2
            = { data with id := some freshId, savedAt := some now } :: drafts ∧
          (handleSaveDraft freshId now data drafts).1.id = some freshId ∧
          (handleSaveDraft freshId now data drafts).1.savedAt = some now) := by
  constructor
  · intro i hid hne hex
    have hdid : strFalsyOr data.id freshId = i := by
      rw [hid]; simp [strFalsyOr, hne]
    cases hfd : jsFindIndex (fun d => decide (d.id = some i)) drafts with
    | none =>
      exfalso
      obtain ⟨d, hd, hdi⟩ := hex
      have hf := (jsFindIndex_eq_none_iff _ drafts).mp hfd d hd
      simp [hdi] at hf
    | some idx =>
      have hsave : (handleSaveDraft freshId now data drafts).2
          = drafts.set idx { data with id := some i, savedAt := some now } := by
        simp only [handleSaveDraft, hdid, hfd]
      rw [hsave]
      refine ⟨List.length_set drafts idx _, ?_⟩
      exact map_set_of_jsFindIndex _ InvoiceData.id _
        (fun x hx => of_decide_eq_true hx) drafts idx hfd
  · intro hid hall
    have hdid : strFalsyOr data.id freshId = freshId := by rw [hid]; rfl
    have hfd : jsFindIndex (fun d => decide (d.id = some freshId)) drafts = none :=
      (jsFindIndex_eq_none_iff _ drafts).mpr
        (fun x hx => decide_eq_false (hall x hx))
    refine ⟨?_, ?_, ?_⟩ <;> simp only [handleSaveDraft, hdid, hfd]

/-- Concrete draft with an id, used by the draft-saving witnesses. -/
def exDraftA : InvoiceData :=
  { id := some "a", customerName := "c", reference := "r", date := "d",
    items := [], footerNote := "n", savedAt := none }

/-- Concrete draft without an id, used by the draft-saving witnesses. -/
def exDraftNew : InvoiceData :=
  { id := none, customerName := "c2", reference := "r2", date := "d2",
    items := [], footerNote := "n2", savedAt := none }

/-- Witness for C2 at concrete drafts: re-saving the only draft keeps the
    collection at one entry; saving an id-less draft into an empty
    collection creates exactly the stamped entry. -/
theorem saveDraft_upsert_witness :
    (handleSaveDraft "g" "t" exDraftA [exDraftA]).2.length = 1 ∧
      (handleSaveDraft "g" "t" exDraftNew []).2
        = [{ exDraftNew with id := some "g", savedAt := some "t" }] :=
  ⟨((saveDraft_upsert "g" "t" exDraftA [exDraftA]).1 "a" rfl (by decide)
      ⟨exDraftA, by simp, rfl⟩).1,
    ((saveDraft_upsert "g" "t" exDraftNew []).2 rfl (by simp)).1⟩

/-- C9: saving a draft whose resolved id is not in the collection prepends
    the stamped draft at the front; re-saving an existing draft overwrites
    at its found index, and every other position is unchanged. -/
theorem saveDraft_order (freshId now : String) (data : InvoiceData)
    (drafts : List InvoiceData) :
    ((∀ d ∈ drafts, d.id ≠ some (strFalsyOr data.id freshId)) →
        (handleSaveDraft freshId now data drafts).2
          = { data with
              id := some (strFalsyOr data.id freshId),
              savedAt := some now } :: drafts) ∧
      (∀ idx, jsFindIndex
            (fun d => decide (d.id = some (strFalsyOr data.id freshId))) drafts
            = some idx →
        (handleSaveDraft freshId now data drafts).2
            = drafts.set idx { data with
                id := some (strFalsyOr data.id freshId),
                savedAt := some now } ∧
          ∀ j, j ≠ idx →
            (handleSaveDraft freshId now data drafts).2[j]? = drafts[j]?) := by
  constructor
  · intro hall
    have hfd : jsFindIndex
        (fun d => decide (d.id = some (strFalsyOr data.id freshId))) drafts = none :=
      (jsFindIndex_eq_none_iff _ drafts).mpr
        (fun x hx => decide_eq_false (hall x hx))
    simp only [handleSaveDraft, hfd]
  · intro idx hfd
    have hsave : (handleSaveDraft freshId now data drafts).2
        = drafts.set idx { data with
            id := some (strFalsyOr data.id freshId),
            savedAt := some now } := by
      simp only [handleSaveDraft, hfd]
    refine ⟨hsave, fun j hj => ?_⟩
    rw [hsave]
    exact List.getElem?_set_ne (Ne.symm hj)

/-- Witness for C9 at concrete drafts: a new draft is prepended in front of
    the existing one; re-saving the existing draft overwrites position 0. -/
theorem saveDraft_order_witness :
    (handleSaveDraft "g" "t" exDraftNew [exDraftA]).2
        = { exDraftNew with id := some "g", savedAt := some "t" } :: [exDraftA] ∧
      (handleSaveDraft "g" "t" exDraftA [exDraftA]).2
        = [exDraftA].set 0 { exDraftA with id := some "a", savedAt := some "t" } :=
  ⟨(saveDraft_order "g" "t" exDraftNew [exDraftA]).1 (by decide),
    ((saveDraft_order "g" "t" exDraftA [exDraftA]).2 0 (by decide)).1⟩

/-- C3: for every contents of the three storage records, writing a backup
    and then restoring that same file reproduces the persisted `products`,
    `invoiceDrafts` and `appSettings` records identically (all values are
    stored in JSON.stringify normal form, so value identity is byte
    identity). -/
theorem backup_restore_roundtrip (store : Store)
    (hp : store.products ≠ none) (hd : store.invoiceDrafts ≠ none)
    (hs : store.appSettings ≠ none) :
    handleRestore (handleBackup store) store = store := by
  obtain ⟨ps, ds, ss⟩ := store
  cases ps with
  | none => exact absurd rfl hp
  | some ps =>
    cases ds with
    | none => exact absurd rfl hd
    | some ds =>
      cases ss with
      | none => exact absurd rfl hs
      | some ss => rfl

/-- Concrete store with all three records present, for the C3 witness. -/
def exStore : Store :=
  { products := some [], invoiceDrafts := some [exDraftA],
    appSettings := some emptyStoredSettings }

/-- Witness for C3 at a concrete store with all three records present. -/
theorem backup_restore_roundtrip_witness :
    handleRestore (handleBackup exStore) exStore = exStore :=
  backup_restore_roundtrip exStore (by simp [exStore]) (by simp [exStore])
    (by simp [exStore])

/-- C8 counterexample: loading a stored settings record with no fields (the
    parse of `'{}'`) leaves companyLogo and taxRate undefined — they are
    spread verbatim and never defaulted, so not every AppSettings field of
    the loaded settings is defined. -/
theorem load_settings_cex :
    (loadSettings emptyStoredSettings).companyLogo = none ∧
      (loadSettings emptyStoredSettings).taxRate = none := by
  exact ⟨rfl, rfl⟩

/-- C8 amended: loading a stored settings record defaults themeColor (when
    missing or empty), showImageColumn (when missing) and tableConfig (the
    whole record when missing, and each TableConfig field missing from a
    present record); present fields are kept; companyLogo and taxRate are
    taken verbatim from the stored record and stay undefined when missing. -/
theorem load_settings_amended (parsed : StoredSettings) :
    (loadSettings parsed).companyLogo = parsed.companyLogo ∧
      (loadSettings parsed).taxRate = parsed.taxRate ∧
      (parsed.themeColor = none →
        (loadSettings parsed).themeColor = DEFAULT_COLOR) ∧
      (parsed.themeColor = some "" →
        (loadSettings parsed).themeColor = DEFAULT_COLOR) ∧
      (∀ c, parsed.themeColor = some c → c ≠ "" →
        (loadSettings parsed).themeColor = c) ∧
      (parsed.showImageColumn = none →
        (loadSettings parsed).showImageColumn = true) ∧
      (∀ b, parsed.showImageColumn = some b →
        (loadSettings parsed).showImageColumn = b) ∧
      (parsed.tableConfig = none →
        (loadSettings parsed).tableConfig = DEFAULT_TABLE_CONFIG) ∧
      (∀ tc, parsed.tableConfig = some tc →
        (tc.imageWidth = none →
          (loadSettings parsed).tableConfig.imageWidth = 10) ∧
        (tc.itemWidth = none →
          (loadSettings parsed).tableConfig.itemWidth = 15) ∧
        (tc.priceWidth = none →
          (loadSettings parsed).tableConfig.priceWidth = 15) ∧
        (tc.qtyWidth = none →
          (loadSettings parsed).tableConfig.qtyWidth = 10) ∧
        (tc.totalWidth = none →
          (loadSettings parsed).tableConfig.totalWidth = 10) ∧
        (tc.rowPadding = none →
          (loadSettings parsed).tableConfig.rowPadding = 8) ∧
        (tc.fontSize = none →
          (loadSettings parsed).tableConfig.fontSize = 14) ∧
        (∀ q, tc.imageWidth = some q →
          (loadSettings parsed).tableConfig.imageWidth = q) ∧
        (∀ q, tc.itemWidth = some q →
          (loadSettings parsed).tableConfig.itemWidth = q) ∧
        (∀ q, tc.priceWidth = some q →
          (loadSettings parsed).tableConfig.priceWidth = q) ∧
        (∀ q, tc.qtyWidth = some q →
          (loadSettings parsed).tableConfig.qtyWidth = q) ∧
        (∀ q, tc.totalWidth = some q →
          (loadSettings parsed).tableConfig.totalWidth = q) ∧
        (∀ q, tc.rowPadding = some q →
          (loadSettings parsed).tableConfig.rowPadding = q) ∧
        (∀ q, tc.fontSize = some q →
          (loadSettings parsed).tableConfig.fontSize = q)) := by
  refine ⟨rfl, rfl, ?_, ?_, ?_, ?_, ?_, ?_, ?_⟩
  · intro h; simp [loadSettings, h, strFalsyOr]
  · intro h; simp [loadSettings, h, strFalsyOr]
  · intro c hc hne; simp [loadSettings, hc, strFalsyOr, hne]
  · intro h; simp [loadSettings, h]
  · intro b hb; simp [loadSettings, hb]
  · intro h; simp [loadSettings, h]
  · intro tc htc
    refine ⟨?_, ?_, ?_, ?_, ?_, ?_, ?_, ?_, ?_, ?_, ?_, ?_, ?_, ?_⟩ <;>
      first
        | (intro h; simp [loadSettings, htc, mergeTableConfig, h,
            DEFAULT_TABLE_CONFIG])
        | (intro q h; simp [loadSettings, htc, mergeTableConfig, h])

/-- Concrete stored table config with itemWidth and priceWidth present and
    the other five fields missing. -/
def exStoredPartialTC : StoredTableConfig :=
  { imageWidth := none, itemWidth := some 20, priceWidth := some 12,
    qtyWidth := none, totalWidth := none, rowPadding := none, fontSize := none }

/-- Concrete stored settings with a present-but-empty themeColor, a present
    showImageColumn and a partial table config. -/
def exStoredPartial : StoredSettings :=
  { companyLogo := none, taxRate := none, themeColor := some "",
    showImageColumn := some false, tableConfig := some exStoredPartialTC }

/-- Witness for the amended C8 statement at the all-missing stored record
    and at a record with a present-but-empty themeColor and a partial table
    config: missing fields take their defaults, present fields are kept. -/
theorem load_settings_amended_witness :
    (loadSettings emptyStoredSettings).themeColor = DEFAULT_COLOR ∧
      (loadSettings exStoredPartial).themeColor = DEFAULT_COLOR ∧
      (loadSettings emptyStoredSettings).showImageColumn = true ∧
      (loadSettings exStoredPartial).showImageColumn = false ∧
      (loadSettings emptyStoredSettings).tableConfig = DEFAULT_TABLE_CONFIG ∧
      (loadSettings exStoredPartial).tableConfig.itemWidth = 20 ∧
      (loadSettings exStoredPartial).tableConfig.priceWidth = 12 ∧
      (loadSettings exStoredPartial).tableConfig.qtyWidth = 10 := by
  refine ⟨?_, ?_, ?_, ?_, ?_, ?_, ?_, ?_⟩
  · exact (load_settings_amended emptyStoredSettings).2.2.1 rfl
  · exact (load_settings_amended exStoredPartial).2.2.2.1 rfl
  · exact (load_settings_amended emptyStoredSettings).2.2.2.2.2.1 rfl
  · exact (load_settings_amended exStoredPartial).2.2.2.2.2.2.1 false rfl
  · exact (load_settings_amended emptyStoredSettings).2.2.2.2.2.2.2.1 rfl
  · exact ((load_settings_amended exStoredPartial).2.2.2.2.2.2.2.2
      exStoredPartialTC rfl).2.2.2.2.2.2.2.2.1 20 rfl
  · exact ((load_settings_amended exStoredPartial).2.2.2.2.2.2.2.2
      exStoredPartialTC rfl).2.2.2.2.2.2.2.2.2.1 12 rfl
  · exact ((load_settings_amended exStoredPartial).2.2.2.2.2.2.2.2
      exStoredPartialTC rfl).2.2.2.1 rfl

/-- mapIdxFrom preserves length. -/
theorem mapIdxFrom_length (g : ℕ → α → β) :
    ∀ (n : ℕ) (l : List α), (mapIdxFrom g n l).length = l.length := by
  intro n l
  induction l generalizing n with
  | nil => simp [mapIdxFrom]
  | cons x xs ih => simp [mapIdxFrom, ih]

/-- Element lookup into mapIdxFrom. -/
theorem mapIdxFrom_getElem? (g : ℕ → α → β) :
    ∀ (n : ℕ) (l : List α) (i : ℕ),
      (mapIdxFrom g n l)[i]? = (l[i]?).map (g (n + i)) := by
  intro n l
  induction l generalizing n with
  | nil => intro i; simp [mapIdxFrom]
  | cons x xs ih =>
    intro i
    cases i with
    | zero => simp [mapIdxFrom]
    | succ j =>
      have h := ih (n + 1) j
      simpa [mapIdxFrom, Nat.add_assoc, Nat.add_comm 1 j] using h

/-- Case analysis of a successful runUpload: it returns the untouched
    catalog (falsy response text, or no products array), or appends exactly
    the mapped batch of the parsed entries. -/
theorem runUpload_ok_cases (o : UploadOracles) (f : UploadFile)
    (gen : ℕ → String) (ps : List Product) (r : List Product × UploadStatus)
    (hr : runUpload o f gen ps = Except.ok r) :
    r = (ps, UploadStatus.analyzing) ∨ r = (ps, UploadStatus.notFound) ∨
      ∃ t entries, o.apiText = Except.ok (some t) ∧
        o.parseJson t = Except.ok (some entries) ∧
        r = (ps ++ mapIdxFrom (fun i e => mkProduct (gen i) (runUploadImage o f) e)
              0 entries,
            UploadStatus.success entries.length) := by
  by_cases hw : isWordFile f = true
  · cases hwt : o.wordText with
    | error e => simp [runUpload, hw, hwt] at hr
    | ok text =>
      by_cases hte : text = ""
      · simp [runUpload, hw, hwt, hte] at hr
      · cases hapi : o.apiText with
        | error e => simp [runUpload, hw, hwt, hte, hapi] at hr
        | ok topt =>
          cases topt with
          | none =>
            simp [runUpload, hw, hwt, hte, hapi] at hr
            exact Or.inl hr.symm
          | some t =>
            cases hpj : o.parseJson t with
            | error e => simp [runUpload, hw, hwt, hte, hapi, hpj] at hr
            | ok eopt =>
              cases eopt with
              | none =>
                simp [runUpload, hw, hwt, hte, hapi, hpj] at hr
                exact Or.inr (Or.inl hr.symm)
              | some entries =>
                refine Or.inr (Or.inr ⟨t, entries, rfl, hpj, ?_⟩)
                simp [runUpload, hw, hwt, hte, hapi, hpj, mapIdxFrom_length,
                  runUploadImage] at hr ⊢
                exact hr.symm
  · have hw' : isWordFile f = false := Bool.not_eq_true _ ▸ (by simpa using hw)
    cases hfd : o.fileData with
    | error e => simp [runUpload, hw', hfd] at hr
    | ok b64 =>
      cases hapi : o.apiText with
      | error e => simp [runUpload, hw', hfd, hapi] at hr
      | ok topt =>
        cases topt with
        | none =>
          simp [runUpload, hw', hfd, hapi] at hr
          exact Or.inl hr.symm
        | some t =>
          cases hpj : o.parseJson t with
          | error e => simp [runUpload, hw', hfd, hapi, hpj] at hr
          | ok eopt =>
            cases eopt with
            | none =>
              simp [runUpload, hw', hfd, hapi, hpj] at hr
              exact Or.inr (Or.inl hr.symm)
            | some entries =>
              refine Or.inr (Or.inr ⟨t, entries, rfl, hpj, ?_⟩)
              simp [runUpload, hw', hfd, hapi, hpj, mapIdxFrom_length,
                runUploadImage] at hr ⊢
              exact hr.symm

/-- C7: the extraction operation is atomic with respect to the persisted
    catalog: a missing key or any failing step (file read, Word text
    extraction, API call, response parse) surfaces its status and leaves the
    persisted products record exactly as it was, and on success either
    nothing is written or the whole extracted batch is appended in the
    single write. -/
theorem upload_atomicity (hasKey : Bool) (o : UploadOracles) (f : UploadFile)
    (gen : ℕ → String) (ps : List Product) :
    (hasKey = false →
        handleFileUpload hasKey o f gen ps = (ps, UploadStatus.missingKey)) ∧
      (∀ e, runUpload o f gen ps = Except.error e →
        handleFileUpload true o f gen ps = (ps, UploadStatus.error)) ∧
      (∀ r, runUpload o f gen ps = Except.ok r →
        handleFileUpload true o f gen ps = r) ∧
      (∀ r, runUpload o f gen ps = Except.ok r →
        r.1 = ps ∨
          ∃ t entries, o.apiText = Except.ok (some t) ∧
            o.parseJson t = Except.ok (some entries) ∧
            r = (ps ++ mapIdxFrom
                  (fun i e => mkProduct (gen i) (runUploadImage o f) e) 0 entries,
                UploadStatus.success entries.length)) := by
  refine ⟨?_, ?_, ?_, ?_⟩
  · intro h; simp [handleFileUpload, h]
  · intro e he; simp [handleFileUpload, he]
  · intro r hr; simp [handleFileUpload, hr]
  · intro r hr
    rcases runUpload_ok_cases o f gen ps r hr with h | h | h
    · exact Or.inl (by rw [h])
    · exact Or.inl (by rw [h])
    · exact Or.inr h

/-- Concrete image upload file for the upload witnesses. -/
def exFileImage : UploadFile := { name := "a.png", type := "image/png" }

/-- Concrete response entry with every schema field missing. -/
def exEntryBare : RawEntry :=
  { code := none, name := none, description := none, price := none }

/-- Concrete all-successful upload oracles. -/
def exOracles : UploadOracles :=
  { wordText := Except.ok "w", fileData := Except.ok "data:image/png;base64,AA",
    apiText := Except.ok (some "resp"),
    parseJson := fun _ => Except.ok (some [exEntryBare]) }

/-- Concrete upload oracles whose file read fails. -/
def exOraclesErr : UploadOracles :=
  { wordText := Except.ok "w", fileData := Except.error "boom",
    apiText := Except.ok (some "resp"),
    parseJson := fun _ => Except.ok (some [exEntryBare]) }

/-- Concrete id generator for the upload witnesses. -/
def exGen : ℕ → String := fun _ => "newid"

/-- Witness for C7: a missing key and a failing file read each leave the
    empty catalog unchanged and surface their status. -/
theorem upload_atomicity_witness :
    handleFileUpload false exOracles exFileImage exGen []
        = ([], UploadStatus.missingKey) ∧
      handleFileUpload true exOraclesErr exFileImage exGen []
        = ([], UploadStatus.error) :=
  ⟨(upload_atomicity false exOracles exFileImage exGen []).1 rfl,
    (upload_atomicity true exOraclesErr exFileImage exGen []).2.1 "boom" rfl⟩

/-- Concrete upload file whose name ends in .docx but whose MIME type is an
    image: the isWord test routes it to the Word path. -/
def cexFileDocxImage : UploadFile := { name := "scan.docx", type := "image/png" }

/-- C6 counterexample: for the file named `scan.docx` with type `image/png`,
    the uploaded file is an image (its type starts with "image"), yet the
    extracted product carries no image — the name-based isWord test routes
    the upload to the Word path, where no base64 data is kept. So the image
    is not attached if and only if the file is an image. -/
theorem upload_image_iff_cex :
    strStartsWith cexFileDocxImage.type "image" = true ∧
      (handleFileUpload true exOracles cexFileDocxImage exGen []).1.map Product.image
        = [none] := by
  exact ⟨by decide, by decide⟩

/-- C6 amended: each parsed response entry becomes a catalog product with a
    fresh id and defaults for every missing field (code to "N/A", name to the
    placeholder, description to empty, price to 0), the batch is appended to
    the existing catalog, and the uploaded image is attached if and only if
    the file's type is an image AND the file was not routed to the Word path
    (a name ending in .docx). -/
theorem upload_extraction_amended (o : UploadOracles) (f : UploadFile)
    (gen : ℕ → String) (ps : List Product) (wtext b64 t : String)
    (entries : List RawEntry)
    (hwt : o.wordText = Except.ok wtext) (hwne : wtext ≠ "")
    (hfd : o.fileData = Except.ok b64) (hb : b64 ≠ "")
    (hapi : o.apiText = Except.ok (some t))
    (hparse : o.parseJson t = Except.ok (some entries)) :
    (handleFileUpload true o f gen ps).2 = UploadStatus.success entries.length ∧
      (handleFileUpload true o f gen ps).1.take ps.length = ps ∧
      (handleFileUpload true o f gen ps).1.length = ps.length + entries.length ∧
      (∀ i e, entries[i]? = some e →
        (handleFileUpload true o f gen ps).1[ps.length + i]?
          = some { id := gen i,
                   code := strFalsyOr e.code "N/A",
                   name := strFalsyOr e.name defaultProductName,
                   description := strFalsyOr e.description "",
                   price := numFalsyOr e.price 0,
                   image := if isWordFile f = false ∧ strStartsWith f.type "image" = true
                     then some b64 else none }) := by
  have hrun : handleFileUpload true o f gen ps
      = (ps ++ mapIdxFrom (fun i e => mkProduct (gen i)
            (if isWordFile f = false ∧ strStartsWith f.type "image" = true
              then some b64 else none) e) 0 entries,
          UploadStatus.success entries.length) := by
    by_cases hw : isWordFile f = true
    · simp [handleFileUpload, runUpload, hw, hwt, hwne, hapi, hparse,
        mapIdxFrom_length]
    · have hw' : isWordFile f = false := by simpa using hw
      simp [handleFileUpload, runUpload, hw', hfd, hb, hapi, hparse,
        mapIdxFrom_length]
  refine ⟨?_, ?_, ?_, ?_⟩
  · rw [hrun]
  · rw [hrun]; exact List.take_left ps _
  · rw [hrun]; simp [mapIdxFrom_length]
  · intro i e hie
    rw [hrun]
    show (ps ++ mapIdxFrom _ 0 entries)[ps.length + i]? = _
    rw [List.getElem?_append_right (Nat.le_add_right _ _)]
    rw [Nat.add_sub_cancel_left, mapIdxFrom_getElem?]
    simp [hie, mkProduct]

/-- Witness for the amended C6 statement at concrete oracles, file, and a
    response entry with every field missing: the single extracted product is
    appended with all defaults and the uploaded image attached. -/
theorem upload_extraction_amended_witness :
    (handleFileUpload true exOracles exFileImage exGen []).2
        = UploadStatus.success 1 ∧
      (handleFileUpload true exOracles exFileImage exGen []).1[0]?
        = some { id := "newid", code := "N/A", name := defaultProductName,
                 description := "", price := 0,
                 image := some "data:image/png;base64,AA" } := by
  have h := upload_extraction_amended exOracles exFileImage exGen []
    "w" "data:image/png;base64,AA" "resp" [exEntryBare]
    rfl (by decide) rfl (by decide) rfl rfl
  refine ⟨h.1, ?_⟩
  have h4 := h.2.2.2 0 exEntryBare rfl
  simpa [exEntryBare, strFalsyOr, numFalsyOr] using h4

/- Numeric form input theorems. -/

/-- C10: every numeric field set through a form handler (invoice item price
    and qty, the tax rate, the product price in the edit modal) stores
    `parseFloat(input) || 0`: the parsed value when the parse yields a
    number (a truthy or zero one — the zero falsy case also stores 0, which
    equals the parse), and 0 when the parse yields NaN; the stored value is
    a rational and never NaN. -/
theorem numeric_input_no_nan (s id : String) (items : List InvoiceItem)
    (st : AppSettings) (p : Product) :
    (jsParseFloat s = none → numericInputValue s = 0) ∧
      (∀ q, jsParseFloat s = some q → numericInputValue s = q) ∧
      (setTaxRateInput s st).taxRate = numericInputValue s ∧
      (setEditPriceInput s p).price = numericInputValue s ∧
      (∀ it, it ∈ updateItemPriceInput id s items → it.id = id →
        it.price = numericInputValue s) ∧
      (∀ it, it ∈ updateItemQtyInput id s items → it.id = id →
        it.qty = numericInputValue s) := by
  refine ⟨?_, ?_, rfl, rfl, ?_, ?_⟩
  · intro h; simp [numericInputValue, numFalsyOr, h]
  · intro q h
    simp only [numericInputValue, numFalsyOr, h]
    by_cases hq : q = 0
    · simp [hq]
    · simp [hq]
  · intro it hit hid
    simp only [updateItemPriceInput, updateItem, List.mem_map] at hit
    obtain ⟨a, _, ha⟩ := hit
    by_cases haid : a.id = id
    · rw [if_pos haid] at ha
      rw [← ha]; rfl
    · rw [if_neg haid] at ha
      exact absurd (ha ▸ hid) haid
  · intro it hit hid
    simp only [updateItemQtyInput, updateItem, List.mem_map] at hit
    obtain ⟨a, _, ha⟩ := hit
    by_cases haid : a.id = id
    · rw [if_pos haid] at ha
      rw [← ha]; rfl
    · rw [if_neg haid] at ha
      exact absurd (ha ▸ hid) haid

/-- Concrete product for the numeric input witness. -/
def exProduct : Product :=
  { id := "p1", code := "K", name := "N", description := "D", price := 7,
    image := none }

/-- Witness for C10 at concrete strings: the empty and a non-numeric input
    store 0, and a decimal input and a scientific-notation input store their
    parsed values. -/
theorem numeric_input_no_nan_witness :
    numericInputValue "" = 0 ∧ numericInputValue "abc" = 0 ∧
      numericInputValue "2.5" = 5 / 2 ∧ numericInputValue "1e3" = 1000 :=
  ⟨(numeric_input_no_nan "" "" [] exSettingsImage exProduct).1 (by decide),
    (numeric_input_no_nan "abc" "" [] exSettingsImage exProduct).1 (by decide),
    (numeric_input_no_nan "2.5" "" [] exSettingsImage exProduct).2.1 (5 / 2)
      (by rw [jsParseFloat, show jsParseFloatParts "2.5"
            = some { neg := false, intVal := 2, fracVal := 5, fracLen := 1,
                     expNeg := false, expVal := 0 }
          from by decide]
          norm_num [partsToRat]),
    (numeric_input_no_nan "1e3" "" [] exSettingsImage exProduct).2.1 1000
      (by rw [jsParseFloat, show jsParseFloatParts "1e3"
            = some { neg := false, intVal := 1, fracVal := 0, fracLen := 0,
                     expNeg := false, expVal := 3 }
          from by decide]
          norm_num [partsToRat])⟩

end Invoicer
